import Mathlib

/-!
Verification of the portwatch-go monitor (src/main.go) against its
specification. The Go source is shallowly embedded: the per-target state
machine (checkTarget), the rotating log writer (rotatingWriter), the trace
filename construction (saveMTRToFile), configuration defaulting and the
startup pipeline of main are translated to pure Lean functions. Times are
modelled as Int nanoseconds since the epoch (the Go zero time.Time is 0);
external inputs (probe outcome, mtr output, clock) are passed as explicit
arguments; filesystem and network side effects are recorded in an explicit
effect list.
-/

/-- TargetState from src/main.go lines 60-68. DownSince is an Int nanosecond
timestamp; the Go zero value time.Time is modelled as 0. -/
structure TargetState where
  name : String
  ip : String
  ipVersion : String
  network : String
  port : Int
  down : Bool
  downSince : Int
deriving DecidableEq

/-- Outcome of tcpPing (src/main.go lines 150-159): nil error, or an error.
The branch in checkTarget inspects whether the error satisfies the net.Error
interface and whether its Timeout() method returns true, so a failure carries
those two booleans plus the message. -/
inductive ProbeResult where
  | ok : ProbeResult
  | fail (isNetError : Bool) (isTimeout : Bool) (msg : String) : ProbeResult
deriving DecidableEq

/-- Observable side effects of one checkTarget cycle, in program order:
log.Printf UP line (with rounded duration), sendUpAlert (with rounded
duration), log.Printf DOWN line, runMTR invocation (trace capture),
log.Printf mtr error line, saveMTRToFile call, sendDownAlert (with the mtr
output or placeholder text). -/
inductive Effect where
  | logUp (durNs : Int)
  | upAlert (durNs : Int)
  | logDown (msg : String)
  | traceRun (ip : String)
  | logMtrError (msg : String)
  | saveTrace (mtrOut : String) (now : Int)
  | downAlert (mtrOut : String)
deriving DecidableEq

def nsPerSecond : Int := 1000000000

/-- Go time.Duration.Round from the Go standard library, used by the source
as d.Round(time.Second): rounds d to the nearest multiple of m, ties away
from zero. Go integer division truncates toward zero, hence Int.tmod. The
int64 saturation branches (minDuration/maxDuration) are not modelled: they
are unreachable for the timestamp differences the monitor computes. -/
def durationRound (d m : Int) : Int :=
  if m ≤ 0 then d
  else
    let r := Int.tmod d m
    if d < 0 then
      let r2 := -r
      if r2 + r2 < m then d + r2 else d - m + r2
    else
      if r + r < m then d - r else d + m - r

/-- The duration computed inside sendUpAlert (src/main.go line 286):
dur := ts.Sub(downSince).Round(time.Second). -/
def sendUpAlertDuration (downSince ts : Int) : Int :=
  durationRound (ts - downSince) nsPerSecond

/-- checkTarget from src/main.go lines 323-366. Inputs beyond the state:
the probe outcome, the mtr combined output text and optional error (the
result of runMTR, consulted only on the timeout branch), and the current
time now. Returns the updated state and the list of side effects in program
order. The t == nil guard is dropped (states are always present); the
t.IP == "" guard is kept. -/
def checkTarget (t : TargetState) (res : ProbeResult)
    (mtrText : String) (mtrErr : Option String) (now : Int) :
    TargetState × List Effect :=
  if t.ip = "" then (t, [])
  else
    match res with
    | .ok =>
      if t.down then
        ({ t with down := false },
         [Effect.logUp (durationRound (now - t.downSince) nsPerSecond),
          Effect.upAlert (sendUpAlertDuration t.downSince now)])
      else (t, [])
    | .fail ne tmo msg =>
      if t.down then (t, [])
      else
        let t2 : TargetState := { t with down := true, downSince := now }
        if ne && tmo then
          let mtrOut :=
            match mtrErr with
            | some e => "mtr error: " ++ e ++ "\n\n" ++ mtrText
            | none => mtrText
          (t2,
           [Effect.logDown msg, Effect.traceRun t.ip]
             ++ (match mtrErr with
                 | some e => [Effect.logMtrError e]
                 | none => [])
             ++ (if mtrOut ≠ "" then [Effect.saveTrace mtrOut now] else [])
             ++ [Effect.downAlert mtrOut])
        else
          (t2, [Effect.logDown msg,
                Effect.downAlert "no mtr (non-timeout error)"])

/-- One cycle of input to checkTarget: probe outcome, mtr result, clock. -/
structure StepInput where
  res : ProbeResult
  mtrText : String
  mtrErr : Option String
  now : Int
deriving DecidableEq

def stepTarget (t : TargetState) (i : StepInput) : TargetState :=
  (checkTarget t i.res i.mtrText i.mtrErr i.now).1

/-- A run of the monitor loop for one target (monitorTarget, src/main.go
lines 370-375): fold checkTarget over a list of cycle inputs. -/
def runTarget (t : TargetState) (is : List StepInput) : TargetState :=
  is.foldl stepTarget t

def isTraceEffect : Effect → Bool
  | .traceRun _ => true
  | _ => false

/-- Whether a cycle invoked the external route tracer (runMTR). -/
def invokesTrace (es : List Effect) : Bool := es.any isTraceEffect

/-- rotatingWriter from src/main.go lines 72-76, modelled over an abstract
fault-free filesystem: active is the byte content of the active log file,
backup the content of the single backup file path plus suffix .1 when that
file exists. The file handle and path are implicit. -/
structure rotatingWriter where
  maxSize : Nat
  active : List Nat
  backup : Option (List Nat)
deriving DecidableEq

/-- rotatingWriter.rotate, src/main.go lines 98-109: os.Rename moves the
active file over the backup path (discarding any prior backup), then the
active path is reopened with O_TRUNC, so the active file becomes empty. -/
def rotatingWriter.rotate (w : rotatingWriter) : rotatingWriter :=
  { w with active := [], backup := some w.active }

/-- rotatingWriter.Write, src/main.go lines 111-124, fault-free path (Stat
succeeds, file open): rotate first when the current size plus the write
length exceeds maxSize, then append; returns the byte count written. -/
def rotatingWriter.write (w : rotatingWriter) (p : List Nat) :
    rotatingWriter × Nat :=
  let w2 := if w.active.length + p.length > w.maxSize then w.rotate else w
  ({ w2 with active := w2.active ++ p }, p.length)

/-- maxLogSize from src/main.go line 385: 50 MiB. -/
def maxLogSize : Nat := 50 * 1024 * 1024

/-- Error flow of rotatingWriter.rotate (src/main.go lines 98-109): the
result of os.Rename is discarded by the source with a blank identifier, and
only the OpenFile error is returned. Arguments are the outcomes of the two
fallible filesystem calls in order. -/
def rotateErrorResult (renameErr openErr : Option String) : Option String :=
  openErr

/-- Outcomes of the fallible calls that rotatingWriter.Write can make, in
program order: whether the file handle is non-nil, the open() error if it
had to reopen, the Stat error and reported size, the rotate-internal rename
and open outcomes, and the final file.Write outcome. -/
structure writeEnv where
  fileOpen : Bool
  openErr : Option String
  statErr : Option String
  statSize : Nat
  renameErr : Option String
  rotateOpenErr : Option String
  appendErr : Option String
  appendN : Nat
deriving DecidableEq

/-- Error flow of rotatingWriter.Write (src/main.go lines 111-124): reopen
if the handle is nil (propagating the open error); Stat; rotate only when
Stat succeeded and the post-write size would exceed maxSize (propagating
the rotate result, which is rotateErrorResult); then append, propagating
its error. -/
def writeOutcome (env : writeEnv) (pLen maxSize : Nat) : Except String Nat :=
  match (if env.fileOpen then none else env.openErr) with
  | some e => .error e
  | none =>
    match (if env.statErr = none ∧ env.statSize + pLen > maxSize then
             rotateErrorResult env.renameErr env.rotateOpenErr
           else none) with
    | some e => .error e
    | none =>
      match env.appendErr with
      | some e => .error e
      | none => .ok env.appendN

/-- Error flow of newRotatingWriter (src/main.go lines 78-84): the open
error is returned to main, which treats it as fatal (log.Fatalf, line
386-389). -/
def newRotatingWriterOutcome (openErr : Option String) : Except String Unit :=
  match openErr with
  | some e => .error e
  | none => .ok ()

/-- TargetConfig from src/main.go lines 18-23. -/
structure TargetConfig where
  name : String
  ipv4 : String
  ipv6 : String
  dport : Int
deriving DecidableEq

/-- Config from src/main.go lines 25-35 (Go JSON zero values: empty string,
0). -/
structure Config where
  targets : List TargetConfig
  ipv4 : String
  ipv6 : String
  dport : Int
  webhook : String
  host : String
  delay : Int
  timeout : Int
  timezone : String
deriving DecidableEq

/-- Legacy fallback from src/main.go lines 401-411: when the targets list is
empty and any of the top-level ipv4/ipv6/dport fields is set, a single
target named default is synthesized from them. -/
def legacyFallback (cfg : Config) : Config :=
  if cfg.targets.isEmpty ∧ (cfg.ipv4 ≠ "" ∨ cfg.ipv6 ≠ "" ∨ cfg.dport ≠ 0)
  then { cfg with
          targets := [{ name := "default", ipv4 := cfg.ipv4,
                        ipv6 := cfg.ipv6, dport := cfg.dport }] }
  else cfg

/-- Defaulting from src/main.go lines 416-423: delay defaults to 30 when
not positive, timeout to 5 when not positive, timezone to Europe/Berlin
when empty. -/
def applyDefaults (cfg : Config) : Config :=
  let c1 := if cfg.delay ≤ 0 then { cfg with delay := 30 } else cfg
  let c2 := if c1.timeout ≤ 0 then { c1 with timeout := 5 } else c1
  if c2.timezone = "" then { c2 with timezone := "Europe/Berlin" } else c2

/-- State construction from src/main.go lines 437-461: targets with a
non-positive port are skipped; a target contributes one state per non-empty
address field, initially up with the zero DownSince. -/
def buildStates : List TargetConfig → List TargetState
  | [] => []
  | tc :: rest =>
    (if tc.dport ≤ 0 then []
     else
       (if tc.ipv4 ≠ "" then
          [{ name := tc.name, ip := tc.ipv4, ipVersion := "IPv4",
             network := "tcp4", port := tc.dport,
             down := false, downSince := 0 }]
        else [])
         ++ (if tc.ipv6 ≠ "" then
               [{ name := tc.name, ip := tc.ipv6, ipVersion := "IPv6",
                  network := "tcp6", port := tc.dport,
                  down := false, downSince := 0 }]
             else []))
      ++ buildStates rest

inductive startupError where
  | webhookMissing : startupError
  | badTimezone (tz : String) : startupError
  | noTargets : startupError
  | noValidTargets : startupError
deriving DecidableEq

/-- The fatal-or-proceed prefix of main (src/main.go lines 400-464) after
the log file is open and the config decoded: legacy fallback, webhook
check, defaulting, timezone load (modelled by the predicate tzOK), the
no-targets check, state construction, and the no-valid-targets check. Each
log.Fatal becomes an error value; success carries the normalized config and
the constructed states. -/
def startup (tzOK : String → Bool) (cfg0 : Config) :
    Except startupError (Config × List TargetState) :=
  let cfg1 := legacyFallback cfg0
  if cfg1.webhook = "" then .error .webhookMissing
  else
    let cfg2 := applyDefaults cfg1
    if ¬ tzOK cfg2.timezone then .error (.badTimezone cfg2.timezone)
    else if cfg2.targets.isEmpty then .error .noTargets
    else
      let states := buildStates cfg2.targets
      if states.isEmpty then .error .noValidTargets
      else .ok (cfg2, states)

/-- Name defaulting in saveMTRToFile, src/main.go lines 183-186. -/
def effectiveName (t : TargetState) : String :=
  if t.name = "" then "target" else t.name

/-- The trace filename built by saveMTRToFile (src/main.go lines 187-192):
Sprintf with the timestamp formatted at second resolution
(2006-01-02_15-04-05), the defaulted name, the address family tag and the
port. tsFormatted is the already formatted timestamp string. -/
def mtrFilename (tsFormatted : String) (t : TargetState) : String :=
  tsFormatted ++ "_" ++ effectiveName t ++ "_" ++ t.ipVersion ++ "_"
    ++ toString t.port ++ ".txt"

/-- Specification-level decimal digit list of a natural number: the
characters Nat.repr produces, written as structural recursion on the value
(most significant digit first, one digit for numbers below ten). Proven
below to agree with the fuel-based Nat.toDigitsCore of core Lean. -/
def natDigits (n : Nat) : List Char :=
  if _h : n < 10 then [Nat.digitChar n]
  else natDigits (n / 10) ++ [Nat.digitChar (n % 10)]
decreasing_by exact Nat.div_lt_self (by omega) (by omega)

/-- A concrete up state, as buildStates constructs them. -/
def upStateW : TargetState :=
  { name := "cf", ip := "198.51.100.1", ipVersion := "IPv4",
    network := "tcp4", port := 443, down := false, downSince := 0 }

/-- A concrete down state reached two seconds into a down episode. -/
def downStateW : TargetState :=
  { name := "cf", ip := "198.51.100.1", ipVersion := "IPv4",
    network := "tcp4", port := 443, down := true, downSince := 2000000000 }

/-- Initial state of the single target of buildStates applied to one
IPv4-only TargetConfig. -/
def tC1init : TargetState :=
  { name := "t1", ip := "203.0.113.1", ipVersion := "IPv4",
    network := "tcp4", port := 443, down := false, downSince := 0 }

/-- A failing probe cycle at time 5s: a net.Error whose Timeout() is true. -/
def failStepW : StepInput :=
  { res := ProbeResult.fail true true "i/o timeout",
    mtrText := "mtr report", mtrErr := none, now := 5000000000 }

/-- A succeeding probe cycle at time 9s. -/
def okStepW : StepInput :=
  { res := ProbeResult.ok, mtrText := "", mtrErr := none, now := 9000000000 }

/-- Unnamed target A: empty name, IPv4, port 443. -/
def unnamedTargetA : TargetState :=
  { name := "", ip := "203.0.113.1", ipVersion := "IPv4",
    network := "tcp4", port := 443, down := true, downSince := 1000000000 }

/-- Unnamed target B: same empty name, family and port as A but a different
address. -/
def unnamedTargetB : TargetState :=
  { name := "", ip := "198.51.100.7", ipVersion := "IPv4",
    network := "tcp4", port := 443, down := true, downSince := 1000000000 }

/-- A write cycle in which the size check triggers rotation, the rename
step of rotation fails, and everything else succeeds. -/
def renameFailEnvW : writeEnv :=
  { fileOpen := true, openErr := none, statErr := none,
    statSize := maxLogSize, renameErr := some "rename failed",
    rotateOpenErr := none, appendErr := none, appendN := 1 }

/-- A write cycle in which the handle is nil and the reopen fails. -/
def openFailEnvW : writeEnv :=
  { fileOpen := false, openErr := some "open failed", statErr := none,
    statSize := 0, renameErr := none, rotateOpenErr := none,
    appendErr := none, appendN := 0 }

/-- A config with unset delay, a negative timeout and an empty timezone. -/
def rawConfigW : Config :=
  { targets := [{ name := "cf", ipv4 := "198.51.100.1", ipv6 := "",
                  dport := 443 }],
    ipv4 := "", ipv6 := "", dport := 0, webhook := "https://wh.test",
    host := "", delay := 0, timeout := -1, timezone := "" }

/-- A config with neither a targets list nor any legacy top-level field. -/
def emptyConfigW : Config :=
  { targets := [], ipv4 := "", ipv6 := "", dport := 0,
    webhook := "https://wh.test", host := "", delay := 1, timeout := 5,
    timezone := "UTC" }

/-- A small rotating writer state for evaluating the write contract. -/
def sinkW : rotatingWriter :=
  { maxSize := maxLogSize, active := [10, 20], backup := none }

/-- applyDefaults never touches the targets list. -/
theorem applyDefaults_targets (cfg : Config) :
    (applyDefaults cfg).targets = cfg.targets := by
  simp only [applyDefaults]
  split <;> split <;> split <;> rfl

/-- applyDefaults never touches the webhook field. -/
theorem applyDefaults_webhook (cfg : Config) :
    (applyDefaults cfg).webhook = cfg.webhook := by
  simp only [applyDefaults]
  split <;> split <;> split <;> rfl

/-- One checkTarget step started at a non-zero time preserves the
invariant that downSince is non-zero while the status is down. -/
theorem stepTarget_preserves_downSince_set (t : TargetState) (i : StepInput)
    (hnow : i.now ≠ 0) (hinv : t.down = true → t.downSince ≠ 0) :
    (stepTarget t i).down = true → (stepTarget t i).downSince ≠ 0 := by
  unfold stepTarget checkTarget
  by_cases hip : t.ip = ""
  · simpa [hip] using hinv
  · cases hres : i.res with
    | ok =>
      by_cases hd : t.down
      · simp [hip, hd]
      · simp [hip, hd]
    | fail ne tmo msg =>
      by_cases hd : t.down
      · simpa [hip, hd] using hinv
      · by_cases hnt : (ne && tmo) = true <;> simp [hip, hd, hnt, hnow]

/-- Claim C5: a self-transition (successful probe while up, or failed probe
while down) produces no effect and no state change, and after any step the
state matches the outcome, so repeating the same probe outcome produces no
further notification, trace or state change: at most one notification per
transition edge. -/
theorem checkTarget_self_transition_silent :
    (∀ (s : TargetState) (mt : String) (me : Option String) (now : Int),
        s.down = false → checkTarget s ProbeResult.ok mt me now = (s, []))
    ∧ (∀ (s : TargetState) (ne tmo : Bool) (msg mt : String)
          (me : Option String) (now : Int),
        s.down = true →
          checkTarget s (ProbeResult.fail ne tmo msg) mt me now = (s, []))
    ∧ (∀ (s : TargetState) (r : ProbeResult) (mt1 : String)
          (me1 : Option String) (n1 : Int) (mt2 : String)
          (me2 : Option String) (n2 : Int),
        checkTarget (checkTarget s r mt1 me1 n1).1 r mt2 me2 n2
          = ((checkTarget s r mt1 me1 n1).1, [])) := by
  refine ⟨?_, ?_, ?_⟩
  · intro s mt me now h
    by_cases hip : s.ip = "" <;> simp [checkTarget, hip, h]
  · intro s ne tmo msg mt me now h
    by_cases hip : s.ip = "" <;> simp [checkTarget, hip, h]
  · intro s r mt1 me1 n1 mt2 me2 n2
    by_cases hip : s.ip = ""
    · cases r <;> simp [checkTarget, hip]
    · cases r with
      | ok =>
        by_cases hd : s.down <;> simp [checkTarget, hip, hd]
      | fail ne tmo msg =>
        by_cases hd : s.down
        · simp [checkTarget, hip, hd]
        · by_cases hnt : (ne && tmo) = true <;>
            simp [checkTarget, hip, hd, hnt]

/-- Witness for C5: the up state with a successful probe is a no-op. -/
theorem checkTarget_self_transition_silent_witness :
    checkTarget upStateW ProbeResult.ok "" none 5000000000 = (upStateW, []) :=
  checkTarget_self_transition_silent.1 upStateW "" none 5000000000 rfl

/-- Claim C8: on a successful probe while down, checkTarget logs the
recovery with the elapsed downtime rounded to whole seconds, then sends an
up alert carrying the same rounded duration (sendUpAlert recomputes
ts.Sub(downSince).Round(time.Second)), invokes no trace, and clears the
down flag. -/
theorem checkTarget_recovery_effects
    (s : TargetState) (mt : String) (me : Option String) (now : Int)
    (hdown : s.down = true) (hip : s.ip ≠ "") :
    checkTarget s ProbeResult.ok mt me now
      = ({ s with down := false },
         [Effect.logUp (durationRound (now - s.downSince) nsPerSecond),
          Effect.upAlert (sendUpAlertDuration s.downSince now)])
    ∧ sendUpAlertDuration s.downSince now
        = durationRound (now - s.downSince) nsPerSecond
    ∧ invokesTrace (checkTarget s ProbeResult.ok mt me now).2 = false := by
  refine ⟨by simp [checkTarget, hip, hdown], rfl, ?_⟩
  simp [checkTarget, hip, hdown, invokesTrace, isTraceEffect]

/-- Witness for C8: recovery at 5.5s of an episode started at 2s. -/
theorem checkTarget_recovery_effects_witness :
    checkTarget downStateW ProbeResult.ok "" none 5500000000
      = ({ downStateW with down := false },
         [Effect.logUp
            (durationRound ((5500000000 : Int) - downStateW.downSince)
              nsPerSecond),
          Effect.upAlert (sendUpAlertDuration downStateW.downSince
            5500000000)])
    ∧ sendUpAlertDuration downStateW.downSince 5500000000
        = durationRound ((5500000000 : Int) - downStateW.downSince)
            nsPerSecond
    ∧ invokesTrace
        (checkTarget downStateW ProbeResult.ok "" none 5500000000).2
        = false :=
  checkTarget_recovery_effects downStateW "" none 5500000000 rfl (by decide)

/-- Claim C10: the down-to-up transition only clears the down flag; every
other field of the state record, including downSince, keeps its value. -/
theorem checkTarget_recovery_frame
    (s : TargetState) (mt : String) (me : Option String) (now : Int)
    (hdown : s.down = true) (hip : s.ip ≠ "") :
    (checkTarget s ProbeResult.ok mt me now).1 = { s with down := false }
    ∧ (checkTarget s ProbeResult.ok mt me now).1.name = s.name
    ∧ (checkTarget s ProbeResult.ok mt me now).1.ip = s.ip
    ∧ (checkTarget s ProbeResult.ok mt me now).1.ipVersion = s.ipVersion
    ∧ (checkTarget s ProbeResult.ok mt me now).1.network = s.network
    ∧ (checkTarget s ProbeResult.ok mt me now).1.port = s.port
    ∧ (checkTarget s ProbeResult.ok mt me now).1.downSince = s.downSince
    ∧ (checkTarget s ProbeResult.ok mt me now).1.down = false := by
  simp [checkTarget, hip, hdown]

/-- Witness for C10: recovery of the concrete down state keeps downSince. -/
theorem checkTarget_recovery_frame_witness :
    (checkTarget downStateW ProbeResult.ok "" none 9000000000).1
      = { downStateW with down := false }
    ∧ (checkTarget downStateW ProbeResult.ok "" none 9000000000).1.name
        = downStateW.name
    ∧ (checkTarget downStateW ProbeResult.ok "" none 9000000000).1.ip
        = downStateW.ip
    ∧ (checkTarget downStateW ProbeResult.ok "" none 9000000000).1.ipVersion
        = downStateW.ipVersion
    ∧ (checkTarget downStateW ProbeResult.ok "" none 9000000000).1.network
        = downStateW.network
    ∧ (checkTarget downStateW ProbeResult.ok "" none 9000000000).1.port
        = downStateW.port
    ∧ (checkTarget downStateW ProbeResult.ok "" none 9000000000).1.downSince
        = downStateW.downSince
    ∧ (checkTarget downStateW ProbeResult.ok "" none 9000000000).1.down
        = false :=
  checkTarget_recovery_frame downStateW "" none 9000000000 rfl (by decide)

/-- Claim C4: on an up-to-down transition the external tracer is invoked
exactly when the failure is a net.Error whose Timeout() is true; otherwise
no trace runs and the down alert carries the fixed placeholder text. When a
trace runs, the invocation targets the probed address. -/
theorem checkTarget_trace_iff_timeout
    (s : TargetState) (ne tmo : Bool) (msg mt : String) (me : Option String)
    (now : Int) (hup : s.down = false) (hip : s.ip ≠ "") :
    invokesTrace (checkTarget s (ProbeResult.fail ne tmo msg) mt me now).2
      = (ne && tmo)
    ∧ ((ne && tmo) = false →
        (checkTarget s (ProbeResult.fail ne tmo msg) mt me now).2
          = [Effect.logDown msg,
             Effect.downAlert "no mtr (non-timeout error)"])
    ∧ ((ne && tmo) = true →
        Effect.traceRun s.ip
          ∈ (checkTarget s (ProbeResult.fail ne tmo msg) mt me now).2) := by
  by_cases hnt : (ne && tmo) = true
  · refine ⟨?_, by simp [hnt], ?_⟩
    · cases me <;>
        simp [checkTarget, hip, hup, hnt, invokesTrace, isTraceEffect]
    · intro _
      cases me <;> simp [checkTarget, hip, hup, hnt]
  · rw [Bool.not_eq_true] at hnt
    refine ⟨?_, ?_, by simp [hnt]⟩
    · simp [checkTarget, hip, hup, hnt, invokesTrace, isTraceEffect]
    · intro _
      simp [checkTarget, hip, hup, hnt]

/-- Witness for C4: a connection-refused style failure (net.Error with
Timeout() false) on the up state never traces and carries the placeholder;
the timeout case of the same statement holds vacuously here. -/
theorem checkTarget_trace_iff_timeout_witness :
    invokesTrace
      (checkTarget upStateW (ProbeResult.fail true false "connection refused")
        "" none 3000000000).2 = (true && false)
    ∧ ((true && false) = false →
        (checkTarget upStateW
          (ProbeResult.fail true false "connection refused")
          "" none 3000000000).2
          = [Effect.logDown "connection refused",
             Effect.downAlert "no mtr (non-timeout error)"])
    ∧ ((true && false) = true →
        Effect.traceRun upStateW.ip
          ∈ (checkTarget upStateW
              (ProbeResult.fail true false "connection refused")
              "" none 3000000000).2) :=
  checkTarget_trace_iff_timeout upStateW true false "connection refused" ""
    none 3000000000 rfl (by decide)

/-- Claim C2: with the 50 MiB threshold main configures, write rotates
exactly when the current active size plus the write length exceeds the
threshold; after rotation the old active content is the single backup
(overwriting any prior one, the backup field holding at most one
generation) and the active file holds only the new bytes; otherwise the
bytes are appended and the backup is untouched. The returned count is the
write length. -/
theorem rotatingWriter_write_contract
    (w : rotatingWriter) (p : List Nat) (hmax : w.maxSize = maxLogSize) :
    (rotatingWriter.write w p).2 = p.length
    ∧ (w.active.length + p.length > maxLogSize →
        (rotatingWriter.write w p).1.backup = some w.active
        ∧ (rotatingWriter.write w p).1.active = p)
    ∧ (w.active.length + p.length ≤ maxLogSize →
        (rotatingWriter.write w p).1.backup = w.backup
        ∧ (rotatingWriter.write w p).1.active = w.active ++ p)
    ∧ (rotatingWriter.write w p).1.maxSize = w.maxSize := by
  rw [← hmax]
  by_cases h : w.active.length + p.length > w.maxSize
  · simp [rotatingWriter.write, rotatingWriter.rotate, h, Nat.not_le.mpr h]
  · simp [rotatingWriter.write, h]

/-- Witness for C2: a two-byte active file far below the threshold takes a
plain append. -/
theorem rotatingWriter_write_contract_witness :
    (rotatingWriter.write sinkW [30]).2 = [30].length
    ∧ (sinkW.active.length + [30].length > maxLogSize →
        (rotatingWriter.write sinkW [30]).1.backup = some sinkW.active
        ∧ (rotatingWriter.write sinkW [30]).1.active = [30])
    ∧ (sinkW.active.length + [30].length ≤ maxLogSize →
        (rotatingWriter.write sinkW [30]).1.backup = sinkW.backup
        ∧ (rotatingWriter.write sinkW [30]).1.active = sinkW.active ++ [30])
    ∧ (rotatingWriter.write sinkW [30]).1.maxSize = sinkW.maxSize :=
  rotatingWriter_write_contract sinkW [30] rfl

/-- Claim C6: after the startup defaulting, a non-positive delay becomes
30, a non-positive timeout becomes 5, an empty timezone becomes
Europe/Berlin, and set values pass through unchanged (the same not-positive
check absorbing absent, zero and negative values alike). -/
theorem applyDefaults_contract (cfg : Config) :
    ((cfg.delay ≤ 0 → (applyDefaults cfg).delay = 30)
      ∧ (0 < cfg.delay → (applyDefaults cfg).delay = cfg.delay))
    ∧ ((cfg.timeout ≤ 0 → (applyDefaults cfg).timeout = 5)
      ∧ (0 < cfg.timeout → (applyDefaults cfg).timeout = cfg.timeout))
    ∧ ((cfg.timezone = "" →
          (applyDefaults cfg).timezone = "Europe/Berlin")
      ∧ (cfg.timezone ≠ "" → (applyDefaults cfg).timezone = cfg.timezone)) := by
  by_cases h1 : cfg.delay ≤ 0 <;> by_cases h2 : cfg.timeout ≤ 0 <;>
    by_cases h3 : cfg.timezone = "" <;>
    simp [applyDefaults, h1, h2, h3, Int.not_le, Int.not_lt]

/-- Witness for C6: the raw config with delay 0, timeout -1, empty
timezone gets all three defaults. -/
theorem applyDefaults_contract_witness :
    (applyDefaults rawConfigW).delay = 30
    ∧ (applyDefaults rawConfigW).timeout = 5
    ∧ (applyDefaults rawConfigW).timezone = "Europe/Berlin" :=
  ⟨(applyDefaults_contract rawConfigW).1.1 (by decide),
   (applyDefaults_contract rawConfigW).2.1.1 (by decide),
   (applyDefaults_contract rawConfigW).2.2.1 rfl⟩

/-- Claim C3, counterexample: a write that triggers rotation, whose rename
step fails while every other call succeeds, returns success — the rename
failure during rotation is discarded (the source assigns the os.Rename
result to the blank identifier), so it is neither fatal nor returned to the
caller of write. -/
theorem rotation_rename_failure_swallowed :
    renameFailEnvW.renameErr = some "rename failed"
    ∧ renameFailEnvW.statSize + 1 > maxLogSize
    ∧ writeOutcome renameFailEnvW 1 maxLogSize = Except.ok 1 := by
  refine ⟨rfl, by decide, rfl⟩

/-- Claim C3, amended: startup open failure is fatal; a failed reopen in
write is returned; a failed open during a triggered rotation is returned;
a failed append after a successful open (and no earlier error on the
rotation path) is propagated — but the rename failure of rotation is
discarded and never surfaced. -/
theorem write_error_propagation :
    (∀ e : String, newRotatingWriterOutcome (some e) = Except.error e)
    ∧ (∀ (env : writeEnv) (pLen maxSize : Nat) (e : String),
        env.fileOpen = false → env.openErr = some e →
        writeOutcome env pLen maxSize = Except.error e)
    ∧ (∀ (env : writeEnv) (pLen maxSize : Nat) (e : String),
        env.fileOpen = true → env.statErr = none →
        env.statSize + pLen > maxSize → env.rotateOpenErr = some e →
        writeOutcome env pLen maxSize = Except.error e)
    ∧ (∀ (env : writeEnv) (pLen maxSize : Nat) (e : String),
        env.fileOpen = true →
        (env.statErr = none ∧ env.statSize + pLen > maxSize →
          env.rotateOpenErr = none) →
        env.appendErr = some e →
        writeOutcome env pLen maxSize = Except.error e) := by
  refine ⟨fun e => rfl, ?_, ?_, ?_⟩
  · intro env pLen maxSize e hopen herr
    simp [writeOutcome, hopen, herr]
  · intro env pLen maxSize e hopen hstat hsz hrot
    simp [writeOutcome, hopen, hstat, hsz, hrot, rotateErrorResult]
  · intro env pLen maxSize e hopen hrot happ
    by_cases hc : env.statErr = none ∧ env.statSize + pLen > maxSize
    · simp [writeOutcome, hopen, hc, rotateErrorResult, hrot hc, happ]
    · simp [writeOutcome, hopen, hc, happ]

/-- Witness for the amended C3: the nil-handle reopen failure is returned
to the caller of write. -/
theorem write_error_propagation_witness :
    writeOutcome openFailEnvW 1 maxLogSize = Except.error "open failed" :=
  write_error_propagation.2.1 openFailEnvW 1 maxLogSize "open failed" rfl rfl

/-- Claim C7, counterexample: two distinct targets — same empty name, same
family tag, same port, different addresses — produce the same trace
filename for the same second-resolution timestamp, so distinct targets can
collide: the address is not part of the filename. -/
theorem mtrFilename_collision_distinct_targets :
    unnamedTargetA ≠ unnamedTargetB
    ∧ unnamedTargetA.ip ≠ unnamedTargetB.ip
    ∧ mtrFilename "2026-01-02_03-04-05" unnamedTargetA
        = mtrFilename "2026-01-02_03-04-05" unnamedTargetB := by
  refine ⟨by decide, by decide, rfl⟩

/-- Characters produced by Nat.digitChar for values below ten are decimal
digits, never an underscore. -/
theorem digitChar_lt_ten_ne_underscore :
    ∀ k : Nat, k < 10 → Nat.digitChar k ≠ '_' := by decide

/-- Nat.digitChar is injective on values below ten. -/
theorem digitChar_lt_ten_inj :
    ∀ j : Nat, j < 10 → ∀ k : Nat, k < 10 →
      Nat.digitChar j = Nat.digitChar k → j = k := by decide

theorem natDigits_lt (n : Nat) (h : n < 10) :
    natDigits n = [Nat.digitChar n] := by
  rw [natDigits]
  exact dif_pos h

theorem natDigits_ge (n : Nat) (h : ¬ n < 10) :
    natDigits n = natDigits (n / 10) ++ [Nat.digitChar (n % 10)] := by
  conv_lhs => rw [natDigits]
  exact dif_neg h

theorem natDigits_ne_nil (n : Nat) : natDigits n ≠ [] := by
  by_cases h : n < 10
  · rw [natDigits_lt n h]; simp
  · rw [natDigits_ge n h]; simp

/-- The decimal digit string of a natural number never contains an
underscore. -/
theorem natDigits_no_underscore (n : Nat) : '_' ∉ natDigits n := by
  induction n using Nat.strong_induction_on with
  | _ n ih =>
    by_cases h : n < 10
    · rw [natDigits_lt n h]
      simp only [List.mem_singleton]
      intro heq
      exact digitChar_lt_ten_ne_underscore n h heq.symm
    · rw [natDigits_ge n h]
      intro hmem
      rcases List.mem_append.mp hmem with h1 | h2
      · exact ih (n / 10) (Nat.div_lt_self (by omega) (by omega)) h1
      · simp only [List.mem_singleton] at h2
        exact digitChar_lt_ten_ne_underscore (n % 10)
          (Nat.mod_lt n (by omega)) h2.symm

/-- Distinct natural numbers have distinct decimal digit strings. -/
theorem natDigits_injective :
    ∀ m, ∀ n, natDigits m = natDigits n → m = n := by
  intro m
  induction m using Nat.strong_induction_on with
  | _ m ih =>
    intro n h
    by_cases hm : m < 10 <;> by_cases hn : n < 10
    · rw [natDigits_lt m hm, natDigits_lt n hn] at h
      simp only [List.cons.injEq, and_true] at h
      exact digitChar_lt_ten_inj m hm n hn h
    · rw [natDigits_lt m hm, natDigits_ge n hn] at h
      have hlen := congrArg List.length h
      simp only [List.length_singleton, List.length_append] at hlen
      have : natDigits (n / 10) = [] :=
        List.length_eq_zero.mp (by omega)
      exact absurd this (natDigits_ne_nil (n / 10))
    · rw [natDigits_ge m hm, natDigits_lt n hn] at h
      have hlen := congrArg List.length h
      simp only [List.length_singleton, List.length_append] at hlen
      have : natDigits (m / 10) = [] :=
        List.length_eq_zero.mp (by omega)
      exact absurd this (natDigits_ne_nil (m / 10))
    · rw [natDigits_ge m hm, natDigits_ge n hn] at h
      obtain ⟨hpre, hlast⟩ := List.append_inj' h rfl
      have hdiv : m / 10 = n / 10 :=
        ih (m / 10) (Nat.div_lt_self (by omega) (by omega)) (n / 10) hpre
      simp only [List.cons.injEq, and_true] at hlast
      have hmod : m % 10 = n % 10 :=
        digitChar_lt_ten_inj (m % 10) (Nat.mod_lt m (by omega))
          (n % 10) (Nat.mod_lt n (by omega)) hlast
      omega

/-- The fuel-based digit printer of core Lean computes natDigits whenever
the fuel exceeds the value, as it does in Nat.repr. -/
theorem toDigitsCore_eq_natDigits :
    ∀ (f n : Nat) (acc : List Char), n < f →
      Nat.toDigitsCore 10 f n acc = natDigits n ++ acc := by
  intro f
  induction f with
  | zero => intro n acc h; omega
  | succ f ih =>
    intro n acc h
    by_cases h0 : n / 10 = 0
    · have hn : n < 10 := by omega
      simp only [Nat.toDigitsCore, h0, if_true]
      rw [natDigits_lt n hn, Nat.mod_eq_of_lt hn]
      rfl
    · have hrec : n / 10 < f := by
        have hlt : n / 10 < n := Nat.div_lt_self (by omega) (by omega)
        omega
      simp only [Nat.toDigitsCore, h0, if_false]
      rw [ih (n / 10) (Nat.digitChar (n % 10) :: acc) hrec]
      rw [natDigits_ge n (by omega)]
      simp

theorem natRepr_eq (n : Nat) : Nat.repr n = (natDigits n).asString := by
  unfold Nat.repr Nat.toDigits
  rw [toDigitsCore_eq_natDigits (n + 1) n [] (Nat.lt_succ_self n)]
  simp

theorem natRepr_injective (m n : Nat) (h : Nat.repr m = Nat.repr n) :
    m = n := by
  rw [natRepr_eq, natRepr_eq] at h
  exact natDigits_injective m n (congrArg String.data h)

theorem natRepr_no_underscore (n : Nat) : '_' ∉ (Nat.repr n).data := by
  rw [natRepr_eq]
  exact natDigits_no_underscore n

/-- toString on a non-negative Int (strconv.Itoa on the port) is the
decimal representation of its natural value. -/
theorem toString_int_nonneg (p : Int) (hp : 0 ≤ p) :
    toString p = Nat.repr p.toNat := by
  cases p with
  | ofNat m => rfl
  | negSucc m => exact absurd hp (Int.not_le.mpr (Int.negSucc_lt_zero m))

theorem toString_int_inj_nonneg (p q : Int) (hp : 0 ≤ p) (hq : 0 ≤ q)
    (h : toString p = toString q) : p = q := by
  rw [toString_int_nonneg p hp, toString_int_nonneg q hq] at h
  have := natRepr_injective _ _ h
  omega

theorem toString_int_no_underscore (p : Int) (hp : 0 ≤ p) :
    '_' ∉ (toString p).data := by
  rw [toString_int_nonneg p hp]
  exact natRepr_no_underscore p.toNat

/-- Splitting a character list at an underscore is unambiguous when the
part before the underscore is underscore-free. -/
theorem splitAtUnderscore_unique :
    ∀ (u1 u2 w1 w2 : List Char), '_' ∉ u1 → '_' ∉ u2 →
      u1 ++ '_' :: w1 = u2 ++ '_' :: w2 → u1 = u2 ∧ w1 = w2 := by
  intro u1
  induction u1 with
  | nil =>
    intro u2 w1 w2 _ hu2 h
    cases u2 with
    | nil => simpa using h
    | cons c u2' =>
      simp only [List.nil_append, List.cons_append, List.cons.injEq] at h
      exact absurd (h.1 ▸ List.mem_cons_self c u2') hu2
  | cons c u1' ih =>
    intro u2 w1 w2 hu1 hu2 h
    cases u2 with
    | nil =>
      simp only [List.nil_append, List.cons_append, List.cons.injEq] at h
      exact absurd (h.1.symm ▸ List.mem_cons_self c u1') hu1
    | cons d u2' =>
      simp only [List.cons_append, List.cons.injEq] at h
      have hu1' : '_' ∉ u1' := fun hx => hu1 (List.mem_cons_of_mem c hx)
      have hu2' : '_' ∉ u2' := fun hx => hu2 (List.mem_cons_of_mem d hx)
      obtain ⟨he, hw⟩ := ih u2' w1 w2 hu1' hu2' h.2
      exact ⟨by rw [h.1, he], hw⟩

/-- The shape ts_name_family_port of the trace filename parses uniquely at
the character-list level: the timestamp by its length, then the port and
the family tag from the right (both underscore-free), leaving the
free-form name in the middle. -/
theorem filename_parse
    (A1 A2 N1 N2 V1 V2 P1 P2 T : List Char)
    (hA : A1.length = A2.length)
    (hV1 : '_' ∉ V1) (hV2 : '_' ∉ V2)
    (hP1 : '_' ∉ P1) (hP2 : '_' ∉ P2)
    (h : A1 ++ '_' :: (N1 ++ '_' :: (V1 ++ '_' :: (P1 ++ T)))
       = A2 ++ '_' :: (N2 ++ '_' :: (V2 ++ '_' :: (P2 ++ T)))) :
    A1 = A2 ∧ N1 = N2 ∧ V1 = V2 ∧ P1 = P2 := by
  obtain ⟨hAeq, hrest⟩ := List.append_inj h hA
  simp only [List.cons.injEq, true_and] at hrest
  have hrev := congrArg List.reverse hrest
  simp only [List.reverse_append, List.reverse_cons, List.append_assoc,
    List.singleton_append] at hrev
  obtain ⟨-, hrev2⟩ := List.append_inj hrev rfl
  obtain ⟨hPrev, hrev3⟩ := splitAtUnderscore_unique _ _ _ _
    (fun hx => hP1 (List.mem_reverse.mp hx))
    (fun hx => hP2 (List.mem_reverse.mp hx)) hrev2
  obtain ⟨hVrev, hNrev⟩ := splitAtUnderscore_unique _ _ _ _
    (fun hx => hV1 (List.mem_reverse.mp hx))
    (fun hx => hV2 (List.mem_reverse.mp hx)) hrev3
  exact ⟨hAeq, List.reverse_injective hNrev,
    List.reverse_injective hVrev, List.reverse_injective hPrev⟩

theorem string_data_length (s : String) : s.data.length = s.length := rfl

/-- Claim C7, amended: for the components the monitor actually produces
(equal-length formatted timestamps — Go emits a fixed-width
2006-01-02_15-04-05 pattern —, family tags IPv4 or IPv6, and the positive
ports buildStates admits), two incidents receive the same trace filename
exactly when second-resolution timestamp, placeholder-defaulted name,
family tag and port all coincide; the address is not a component, whence
the collision between distinct targets of the counterexample. -/
theorem mtrFilename_collision_characterization
    (ts1 ts2 : String) (t1 t2 : TargetState)
    (hlen : ts1.length = ts2.length)
    (hv1 : t1.ipVersion = "IPv4" ∨ t1.ipVersion = "IPv6")
    (hv2 : t2.ipVersion = "IPv4" ∨ t2.ipVersion = "IPv6")
    (hp1 : 0 < t1.port) (hp2 : 0 < t2.port) :
    mtrFilename ts1 t1 = mtrFilename ts2 t2
      ↔ ts1 = ts2 ∧ effectiveName t1 = effectiveName t2
        ∧ t1.ipVersion = t2.ipVersion ∧ t1.port = t2.port := by
  constructor
  · intro h
    have h0 := congrArg String.data h
    simp only [mtrFilename, String.data_append,
      show ("_" : String).data = ['_'] from rfl, List.append_assoc,
      List.singleton_append] at h0
    obtain ⟨hA, hN, hV, hP⟩ := filename_parse
      ts1.data ts2.data (effectiveName t1).data (effectiveName t2).data
      t1.ipVersion.data t2.ipVersion.data
      (toString t1.port).data (toString t2.port).data (".txt").data
      (by rw [string_data_length, string_data_length, hlen])
      (by rcases hv1 with h1 | h1 <;> rw [h1] <;> decide)
      (by rcases hv2 with h2 | h2 <;> rw [h2] <;> decide)
      (toString_int_no_underscore t1.port (le_of_lt hp1))
      (toString_int_no_underscore t2.port (le_of_lt hp2))
      h0
    exact ⟨String.ext hA, String.ext hN, String.ext hV,
      toString_int_inj_nonneg t1.port t2.port (le_of_lt hp1)
        (le_of_lt hp2) (String.ext hP)⟩
  · rintro ⟨h1, h2, h3, h4⟩
    simp [mtrFilename, h1, h2, h3, h4]

/-- Witness for the amended C7: the two unnamed targets agree on all four
filename components, and the characterization instantiates to their shared
filename. -/
theorem mtrFilename_collision_characterization_witness :
    mtrFilename "2026-01-02_03-04-06" unnamedTargetA
      = mtrFilename "2026-01-02_03-04-06" unnamedTargetB
    ↔ ("2026-01-02_03-04-06" : String) = "2026-01-02_03-04-06"
      ∧ effectiveName unnamedTargetA = effectiveName unnamedTargetB
      ∧ unnamedTargetA.ipVersion = unnamedTargetB.ipVersion
      ∧ unnamedTargetA.port = unnamedTargetB.port :=
  mtrFilename_collision_characterization "2026-01-02_03-04-06"
    "2026-01-02_03-04-06" unnamedTargetA unnamedTargetB rfl
    (Or.inl rfl) (Or.inl rfl) (by decide) (by decide)

/-- Claim C9: a config with an empty targets list and no legacy top-level
field fails startup (at the webhook, timezone or no-targets check — in
every case before any monitor loop exists); and whenever startup succeeds
the constructed usable-state list is non-empty, so zero usable targets is
always fatal. -/
theorem startup_requires_targets :
    (∀ (tzOK : String → Bool) (cfg : Config),
        cfg.targets = [] → cfg.ipv4 = "" → cfg.ipv6 = "" → cfg.dport = 0 →
        (startup tzOK cfg).isOk = false)
    ∧ (∀ (tzOK : String → Bool) (cfg cfg2 : Config)
          (states : List TargetState),
        startup tzOK cfg = Except.ok (cfg2, states) → states ≠ []) := by
  constructor
  · intro tzOK cfg h1 h2 h3 h4
    have hfb : legacyFallback cfg = cfg := by
      simp [legacyFallback, h2, h3, h4]
    have key : ∃ e, startup tzOK cfg = Except.error e := by
      unfold startup
      rw [hfb]
      by_cases hw : cfg.webhook = ""
      · exact ⟨startupError.webhookMissing, by simp [hw]⟩
      · by_cases htz : tzOK (applyDefaults cfg).timezone
        · exact ⟨startupError.noTargets,
            by simp [hw, htz, applyDefaults_targets, h1]⟩
        · exact ⟨startupError.badTimezone (applyDefaults cfg).timezone,
            by simp [hw, htz]⟩
    obtain ⟨e, he⟩ := key
    rw [he]
    rfl
  · intro tzOK cfg cfg2 states h
    simp only [startup] at h
    split at h
    · exact Except.noConfusion h
    · split at h
      · exact Except.noConfusion h
      · split at h
        · exact Except.noConfusion h
        · split at h
          · exact Except.noConfusion h
          · rename_i hne
            injection h with h2
            injection h2 with hcfg hstates
            subst hstates
            intro hnil
            exact hne (by rw [hnil]; rfl)

/-- Witness for C9: the empty config fails startup under a timezone
predicate accepting everything. -/
theorem startup_requires_targets_witness :
    (startup (fun _ => true) emptyConfigW).isOk = false :=
  startup_requires_targets.1 (fun _ => true) emptyConfigW rfl rfl rfl rfl

/-- Claim C1, counterexample: starting from the initial state that
buildStates constructs for a single IPv4 target, one failed probe at 5s
followed by one successful probe at 9s reaches a state whose status is Up
while downSince still holds 5s — the recovery clears only the down flag, so
downSince being set does not imply status Down, refuting the if-and-only-if
over reachable states. -/
theorem downSince_iff_down_counterexample :
    buildStates [{ name := "t1", ipv4 := "203.0.113.1", ipv6 := "",
                   dport := 443 }] = [tC1init]
    ∧ (runTarget tC1init [failStepW, okStepW]).down = false
    ∧ (runTarget tC1init [failStepW, okStepW]).downSince = 5000000000 := by
  refine ⟨by decide, by decide, by decide⟩

/-- Claim C1, amended: over any run started from a state satisfying it and
driven by probes at non-zero times, downSince is non-zero whenever status
is Down; and a step changes downSince only at an Up-to-Down transition,
where it is set to the probe time — so it is assigned exactly once per down
episode and, after the matching recovery, retains its stale value while
status is Up. -/
theorem downSince_invariant_amended :
    (∀ (s : TargetState) (inputs : List StepInput),
        (s.down = true → s.downSince ≠ 0) →
        (∀ i ∈ inputs, i.now ≠ 0) →
        ((runTarget s inputs).down = true →
          (runTarget s inputs).downSince ≠ 0))
    ∧ (∀ (t : TargetState) (i : StepInput),
        (stepTarget t i).downSince ≠ t.downSince →
        t.down = false ∧ (stepTarget t i).down = true
          ∧ (stepTarget t i).downSince = i.now) := by
  constructor
  · intro s inputs
    induction inputs generalizing s with
    | nil => intro hinv _; exact hinv
    | cons i rest ih =>
      intro hinv hall
      rw [runTarget, List.foldl_cons]
      exact ih (stepTarget s i)
        (stepTarget_preserves_downSince_set s i
          (hall i (List.mem_cons_self i rest)) hinv)
        (fun j hj => hall j (List.mem_cons_of_mem i hj))
  · intro t i
    unfold stepTarget checkTarget
    by_cases hip : t.ip = ""
    · simp [hip]
    · cases hres : i.res with
      | ok =>
        by_cases hd : t.down <;> simp [hip, hd]
      | fail ne tmo msg =>
        by_cases hd : t.down
        · simp [hip, hd]
        · by_cases hnt : (ne && tmo) = true <;>
            simp [hip, hd, hnt, Bool.not_eq_true] at *

/-- Witness for the amended C1: the failing step at 5s on the initial
target changes downSince, and the theorem identifies it as the Up-to-Down
assignment of the probe time. -/
theorem downSince_invariant_amended_witness :
    tC1init.down = false ∧ (stepTarget tC1init failStepW).down = true
      ∧ (stepTarget tC1init failStepW).downSince = failStepW.now :=
  downSince_invariant_amended.2 tC1init failStepW (by decide)
